import Mathlib

/-!
Verification of the carpool-frontend sign-up flow and dashboard
(`src/app/dashboard/page.tsx`).

The file contains two React components:

* `SignUpPage`: a three-step sign-up state machine
  (`phone` → `code` → `profile`) driving a phone-verification provider
  (Firebase), a reCAPTCHA widget, and a profile-submission HTTP call.
* `Dashboard`: a read-only profile view with a sign-out action.

We embed the React `useState` fields of each component as a record, and
each event handler as a pure function from the pre-state (plus the
outcome of the external calls the handler awaits) to the post-state
together with the list of external calls the handler issues.  External
collaborators (the identity provider, the HTTP backend, the router) are
opaque: their outcomes are parameters of the handler functions.
-/

namespace CarpoolFrontend

/-- The three values of `SignUpPage`'s `step` state
(`useState<"phone" | "code" | "profile">("phone")`). -/
inductive Step where
  | phone
  | code
  | profile
deriving DecidableEq, Repr

/-- External calls a handler can issue, in order.  `routerPush` models
`router.push(path)`; `fetchSubmitProfile` models the `fetch` of the
profile endpoint; the others model the Firebase SDK calls. -/
inductive ExtCall where
  | signInWithPhoneNumber (phoneNumber : String)
  | confirmCode (code : String)
  | getIdToken
  | fetchSubmitProfile (url : String)
  | firebaseSignOut
  | routerPush (path : String)
deriving DecidableEq, Repr

/-- The state of `SignUpPage`: its seven `useState` fields, together
with the global reCAPTCHA bookkeeping.  `stored` is
`window.recaptchaVerifier` (widget instances are numbered by creation
order); `alive` lists the instances that were constructed and whose
`clear()` was never called; `nextId` numbers the next construction. -/
structure FlowState where
  phone : String
  code : String
  confirmation : Option Nat
  step : Step
  idToken : Option String
  loading : Bool
  error : Option String
  stored : Option Nat
  alive : List Nat
  nextId : Nat
deriving DecidableEq, Repr

/-- The initial state of a freshly mounted `SignUpPage` (the `useState`
initial values), with no widget instance yet. -/
def initState : FlowState :=
  { phone := ""
    code := ""
    confirmation := none
    step := Step.phone
    idToken := none
    loading := false
    error := none
    stored := none
    alive := []
    nextId := 0 }

/-- `setupRecaptcha` (lines 186–224): if `window.recaptchaVerifier`
exists it is `clear()`ed; then a fresh `RecaptchaVerifier` is
constructed and stored on `window`.  `clear()` removes the instance
from the alive set; the stored reference is then overwritten. -/
def setupRecaptcha (s : FlowState) : FlowState :=
  let s1 := match s.stored with
    | some w => { s with alive := s.alive.erase w }
    | none => s
  { s1 with
      alive := s1.nextId :: s1.alive
      stored := some s1.nextId
      nextId := s1.nextId + 1 }

/-- The widget's `expired-callback` (line 204–207): sets
`window.recaptchaVerifier = undefined` without calling `clear()`. -/
def recaptchaExpiredCallback (s : FlowState) : FlowState :=
  { s with stored := none }

/-- The widget's `error-callback` (line 208–211): sets
`window.recaptchaVerifier = undefined` without calling `clear()`. -/
def recaptchaErrorCallback (s : FlowState) : FlowState :=
  { s with stored := none }

/-- The unmount cleanup of `SignUpPage`'s `useEffect` (lines 177–184):
`if (window.recaptchaVerifier) window.recaptchaVerifier.clear()`.
It runs regardless of the current `step` and does not reset the
stored reference. -/
def unmountCleanup (s : FlowState) : FlowState :=
  match s.stored with
  | some w => { s with alive := s.alive.erase w }
  | none => s

/-- JavaScript `phone.startsWith('+')` (line 235): for the
one-character argument `'+'` this is exactly "the first character is
`+`". -/
def startsWithPlus (s : String) : Bool :=
  match s.data with
  | [] => false
  | c :: _ => c == '+'

/-- Phone normalization in `sendCode` (line 235):
`phone.startsWith('+') ? phone : `+1${phone}``. -/
def formatPhone (phone : String) : String :=
  if startsWithPlus phone then phone else "+1" ++ phone

/-- JavaScript truthiness of a nullable string: `null`/`undefined` and
the empty string are falsy. -/
def strTruthy : Option String → Bool
  | none => false
  | some s => !s.isEmpty

/-- `sendCode` (lines 226–255).  `provider` is the outcome of the
awaited `signInWithPhoneNumber` call: `.ok r` resolves with the
confirmation result `r`, `.error msg` rejects with an error whose
`message` is `msg`.  The handler sets `loading`/`error`, runs
`setupRecaptcha`, issues the provider call on the formatted phone
number, and on success stores the confirmation and moves to `code`;
on failure it surfaces a message (`err.message || 'Unknown error'`).
`finally` clears `loading`. -/
def sendCode (s : FlowState) (provider : Except String Nat) :
    FlowState × List ExtCall :=
  let s := { s with loading := true, error := none }
  let s := setupRecaptcha s
  let calls := [ExtCall.signInWithPhoneNumber (formatPhone s.phone)]
  let s := match provider with
    | Except.ok result => { s with confirmation := some result, step := Step.code }
    | Except.error msg =>
        { s with error := some ("Failed to send verification code: " ++
            (if msg.isEmpty then "Unknown error" else msg)) }
  ({ s with loading := false }, calls)

/-- The phone form submission (lines 340–373).  The phone `<input>`
carries the `required` attribute (line 358) and the form has no
`novalidate`, so native constraint validation blocks submission while
the field is empty: `sendCode` only runs when `phone` is non-empty. -/
def phoneFormSubmit (s : FlowState) (provider : Except String Nat) :
    FlowState × List ExtCall :=
  if s.phone = "" then (s, []) else sendCode s provider

/-- `verifyCode` (lines 257–275).  `if (!confirmation) return;` makes
the handler a no-op when no confirmation is held.  Otherwise
`provider` is the outcome of `confirmation.confirm(code)` followed by
`result.user.getIdToken()`: `.ok token` yields the session token. -/
def verifyCode (s : FlowState) (provider : Except Unit String) :
    FlowState × List ExtCall :=
  match s.confirmation with
  | none => (s, [])
  | some _ =>
    let s := { s with loading := true, error := none }
    let calls := [ExtCall.confirmCode s.code, ExtCall.getIdToken]
    let s := match provider with
      | Except.ok token => { s with idToken := some token, step := Step.profile }
      | Except.error _ =>
          { s with error := some "Invalid verification code. Please try again." }
    ({ s with loading := false }, calls)

/-- The "Change number" button's handler (line 401):
`onClick={() => setStep("phone")}`. -/
def changeNumber (s : FlowState) : FlowState × List ExtCall :=
  ({ s with step := Step.phone }, [])

/-- The profile endpoint URL (line 288). -/
def submitProfileUrl : String :=
  "https://carpool-backend-ymsm.onrender.com/submit-profile"

/-- The HTTP response of the profile submission as the handler sees
it: `response.ok` and the parsed JSON body's `detail` field. -/
structure HttpResponse where
  ok : Bool
  detail : Option String
deriving DecidableEq, Repr

/-- `handleProfileSubmit` (lines 277–311).  Sets `loading`/`error`;
throws before the `fetch` when `idToken` is null; otherwise issues the
`fetch` and, on a non-ok response, throws
`new Error(data.detail || 'Failed to save profile')`.  The `catch`
sets `error` to `err.message || "Failed to save profile. Please try
again."`; on success it navigates to the dashboard.  `finally` clears
`loading`. -/
def handleProfileSubmit (s : FlowState) (response : HttpResponse) :
    FlowState × List ExtCall :=
  let s := { s with loading := true, error := none }
  match s.idToken with
  | none =>
    ({ s with
        error := some "No authentication token found. Please complete phone verification."
        loading := false }, [])
  | some _ =>
    if response.ok then
      ({ s with loading := false },
       [ExtCall.fetchSubmitProfile submitProfileUrl, ExtCall.routerPush "/dashboard"])
    else
      let raised := match response.detail with
        | some d => if d.isEmpty then "Failed to save profile" else d
        | none => "Failed to save profile"
      let shown := if raised.isEmpty then "Failed to save profile. Please try again." else raised
      ({ s with error := some shown, loading := false },
       [ExtCall.fetchSubmitProfile submitProfileUrl])

/-- The sanitization applied by the phone and code `onChange` handlers
(lines 357 and 389): `value.replace(/\D/g, '')` deletes every
non-digit character of the entered value. -/
def stripNonDigits (v : String) : String :=
  String.mk (v.toList.filter Char.isDigit)

/-- A change event on one of the two sanitized inputs, carrying the
raw `e.target.value`. -/
inductive InputEvent where
  | phoneInput (v : String)
  | codeInput (v : String)
deriving DecidableEq, Repr

/-- Processing one change event: `setPhone(e.target.value.replace(/\D/g, ''))`
(line 357), resp. `setCode(...)` (line 389). -/
def applyInput (s : FlowState) : InputEvent → FlowState
  | InputEvent.phoneInput v => { s with phone := stripNonDigits v }
  | InputEvent.codeInput v => { s with code := stripNonDigits v }

/-- A sequence of change events applied in order. -/
def runInput (s : FlowState) (es : List InputEvent) : FlowState :=
  es.foldl applyInput s

/-- The widget-lifecycle events of the flow: a `setupRecaptcha`
invocation (start of every `sendCode`), the unmount cleanup, and the
widget's own expired/error callbacks. -/
inductive WidgetEvent where
  | setup
  | unmount
  | expired
  | errored
deriving DecidableEq, Repr

/-- One widget-lifecycle step. -/
def widgetStep (s : FlowState) : WidgetEvent → FlowState
  | WidgetEvent.setup => setupRecaptcha s
  | WidgetEvent.unmount => unmountCleanup s
  | WidgetEvent.expired => recaptchaExpiredCallback s
  | WidgetEvent.errored => recaptchaErrorCallback s

/-- A sequence of widget-lifecycle events applied in order. -/
def runWidget (s : FlowState) (es : List WidgetEvent) : FlowState :=
  es.foldl widgetStep s

/-! ### Dashboard component -/

/-- The state of `Dashboard`: its `useState` fields (`userProfile`
omitted as irrelevant to the verified claims beyond the view
selection, which depends only on `loading` and `error`). -/
structure DashState where
  loading : Bool
  error : Option String
deriving DecidableEq, Repr

/-- The three mutually exclusive renderings of `Dashboard`
(lines 61–145): the loading spinner, the error panel, and the profile
page. -/
inductive DashView where
  | spinner
  | errorPanel
  | profilePage
deriving DecidableEq, Repr

/-- Which view `Dashboard` renders: `if (loading)` the spinner, else
`if (error)` the error panel, else the profile page.  `if (error)`
is JavaScript truthiness on the nullable string. -/
def renderDash (s : DashState) : DashView :=
  if s.loading then DashView.spinner
  else if strTruthy s.error then DashView.errorPanel
  else DashView.profilePage

/-- The buttons each view renders (from the JSX): the error panel has
a Retry button (line 74–79), the profile page a Sign Out button. -/
def viewButtons : DashView → List String
  | DashView.spinner => []
  | DashView.errorPanel => ["Retry"]
  | DashView.profilePage => ["Sign Out"]

/-- `handleSignOut` (lines 51–59).  `result` is the outcome of the
awaited `signOut(auth)`: on resolution the handler navigates to the
landing page `/`; on rejection it sets the error state instead. -/
def handleSignOut (s : DashState) (result : Except String Unit) :
    DashState × List ExtCall :=
  match result with
  | Except.ok _ => (s, [ExtCall.firebaseSignOut, ExtCall.routerPush "/"])
  | Except.error _ =>
      ({ s with error := some "Failed to sign out" }, [ExtCall.firebaseSignOut])

/-! ### Helper lemmas -/

/-- `setupRecaptcha` only touches the widget bookkeeping fields. -/
theorem setupRecaptcha_phone (s : FlowState) : (setupRecaptcha s).phone = s.phone := by
  cases hs : s.stored <;> simp [setupRecaptcha, hs]

/-! ### Claims -/

/-- C1, counterexample.  In the state reached after a successful
challenge issuance (`step = code`, `confirmation = some 7`), the
"change number" action returns to `phone` but the stored confirmation
result does **not** become absent: `setStep("phone")` is the whole
handler and `confirmation` is never reset. -/
theorem changeNumber_keeps_confirmation_cex :
    (changeNumber { initState with step := Step.code, confirmation := some 7 }).1.step
      = Step.phone ∧
    (changeNumber { initState with step := Step.code, confirmation := some 7 }).1.confirmation
      = some 7 := by
  constructor <;> rfl

/-- C1, amended.  The "change number" action always returns the flow
to `phone` and performs no external call, but it retains the pending
verification handle unchanged rather than discarding it (the handle
is only replaced by the next successful challenge issuance). -/
theorem changeNumber_to_phone_no_network (s : FlowState) :
    (changeNumber s).1.step = Step.phone ∧
    (changeNumber s).1.confirmation = s.confirmation ∧
    (changeNumber s).2 = [] :=
  ⟨rfl, rfl, rfl⟩

/-- C2.  Whenever `handleProfileSubmit` runs with `idToken = none`,
it sets the authentication error message and issues no external call
at all; in particular the HTTP request to the profile endpoint is
never issued. -/
theorem profileSubmit_no_token_fails (s : FlowState) (r : HttpResponse)
    (h : s.idToken = none) :
    (handleProfileSubmit s r).1.error
      = some "No authentication token found. Please complete phone verification." ∧
    (handleProfileSubmit s r).2 = [] := by
  simp [handleProfileSubmit, h]

/-- C2, witness at a concrete state in the `profile` step with no
token held. -/
theorem profileSubmit_no_token_fails_witness :
    (handleProfileSubmit { initState with step := Step.profile }
        { ok := true, detail := none }).1.error
      = some "No authentication token found. Please complete phone verification." ∧
    (handleProfileSubmit { initState with step := Step.profile }
        { ok := true, detail := none }).2 = [] :=
  profileSubmit_no_token_fails { initState with step := Step.profile }
    { ok := true, detail := none } rfl

/-- C4.  `sendCode` always calls the identity provider on exactly
`formatPhone phone`; `formatPhone` leaves a phone starting with `+`
unchanged and otherwise prepends the default country-code `+1`; in
particular `9876543210` normalizes to `+19876543210`. -/
theorem sendCode_formats_phone (s : FlowState) (provider : Except String Nat) :
    (sendCode s provider).2 = [ExtCall.signInWithPhoneNumber (formatPhone s.phone)] ∧
    (∀ p : String, startsWithPlus p = true → formatPhone p = p) ∧
    (∀ p : String, startsWithPlus p = false → formatPhone p = "+1" ++ p) ∧
    formatPhone "9876543210" = "+19876543210" := by
  refine ⟨?_, ?_, ?_, by decide⟩
  · cases hs : s.stored <;> cases provider <;>
      simp [sendCode, setupRecaptcha, formatPhone, hs]
  · intro p hp; simp [formatPhone, hp]
  · intro p hp; simp [formatPhone, hp]

/-- C4, witness: both branches of the normalization evaluated at
concrete inputs through the theorem. -/
theorem sendCode_formats_phone_witness :
    formatPhone "+449876543210" = "+449876543210" ∧
    formatPhone "9876543210" = "+19876543210" :=
  ⟨(sendCode_formats_phone initState (Except.ok 0)).2.1 "+449876543210" (by decide),
   (sendCode_formats_phone initState (Except.ok 0)).2.2.2⟩

/-- C5.  Submitting the phone form with an empty phone number leaves
the whole state unchanged (the phone input's native `required`
enforcement blocks the submission) and issues no external call, so
the flow never advances past the `phone` step. -/
theorem phoneFormSubmit_empty_no_advance (s : FlowState)
    (provider : Except String Nat) (h : s.phone = "") :
    (phoneFormSubmit s provider).1 = s ∧ (phoneFormSubmit s provider).2 = [] := by
  simp [phoneFormSubmit, h]

/-- C5, witness at the initial state, where the phone field is empty,
even against a provider that would issue a challenge. -/
theorem phoneFormSubmit_empty_no_advance_witness :
    (phoneFormSubmit initState (Except.ok 3)).1 = initState ∧
    (phoneFormSubmit initState (Except.ok 3)).2 = [] :=
  phoneFormSubmit_empty_no_advance initState (Except.ok 3) rfl

/-- C6.  When `signInWithPhoneNumber` resolves with result `r`,
`sendCode` stores exactly that confirmation (`confirmation = some r`,
non-null) and transitions the flow to the `code` step. -/
theorem sendCode_success_to_code (s : FlowState) (r : Nat) :
    (sendCode s (Except.ok r)).1.step = Step.code ∧
    (sendCode s (Except.ok r)).1.confirmation = some r := by
  cases hs : s.stored <;> simp [sendCode, setupRecaptcha, hs]

/-- C7.  When no pending verification handle exists
(`confirmation = none`), `verifyCode` returns the state completely
unchanged and issues no external call: no provider contact, no error,
no change to `step`, `loading` or any other field. -/
theorem verifyCode_no_confirmation_noop (s : FlowState)
    (provider : Except Unit String) (h : s.confirmation = none) :
    verifyCode s provider = (s, []) := by
  simp [verifyCode, h]

/-- C7, witness at the initial state, even against a provider that
would confirm the code. -/
theorem verifyCode_no_confirmation_noop_witness :
    verifyCode initState (Except.ok "tok") = (initState, []) :=
  verifyCode_no_confirmation_noop initState (Except.ok "tok") rfl

/-- C3, counterexample.  `throw new Error(data.detail || ...)` tests
JavaScript truthiness, not presence: with a token held and a failing
response whose body carries `detail` present but equal to the empty
string, the displayed error is the fallback `Failed to save profile`,
not the `detail` field's value. -/
theorem profileSubmit_empty_detail_cex :
    (HttpResponse.mk false (some "")).detail = some "" ∧
    (handleProfileSubmit { initState with idToken := some "tok", step := Step.profile }
        (HttpResponse.mk false (some ""))).1.error
      = some "Failed to save profile" ∧
    some "Failed to save profile" ≠ some "" := by
  refine ⟨rfl, ?_, by decide⟩
  simp [handleProfileSubmit,
    (by decide : ("" : String).isEmpty = true),
    (by decide : ("Failed to save profile" : String).isEmpty = false)]

/-- C3, amended.  On a non-success HTTP response with a token held,
the flow stays in the `profile` step, the navigation to the dashboard
is not issued, and the displayed error is the response body's
`detail` field when that field is present **and non-empty**, and the
fallback string `Failed to save profile` when it is absent or empty. -/
theorem profileSubmit_failure_stays (s : FlowState) (r : HttpResponse) (t : String)
    (htok : s.idToken = some t) (hstep : s.step = Step.profile) (hok : r.ok = false) :
    (handleProfileSubmit s r).1.step = Step.profile ∧
    (handleProfileSubmit s r).2 = [ExtCall.fetchSubmitProfile submitProfileUrl] ∧
    (∀ d : String, r.detail = some d → d ≠ "" →
      (handleProfileSubmit s r).1.error = some d) ∧
    ((r.detail = none ∨ r.detail = some "") →
      (handleProfileSubmit s r).1.error = some "Failed to save profile") := by
  refine ⟨?_, ?_, ?_, ?_⟩
  · simp [handleProfileSubmit, htok, hok, hstep]
  · simp [handleProfileSubmit, htok, hok]
  · intro d hd hne
    simp [handleProfileSubmit, htok, hok, hd, String.isEmpty_iff, hne]
  · rintro (hd | hd) <;>
      simp [handleProfileSubmit, htok, hok, hd,
        (by decide : ("" : String).isEmpty = true),
        (by decide : ("Failed to save profile" : String).isEmpty = false)]

/-- C3, witness at a concrete failing response carrying a non-empty
`detail`. -/
theorem profileSubmit_failure_stays_witness :
    (handleProfileSubmit { initState with idToken := some "tok", step := Step.profile }
        (HttpResponse.mk false (some "Address is required"))).1.step = Step.profile ∧
    (handleProfileSubmit { initState with idToken := some "tok", step := Step.profile }
        (HttpResponse.mk false (some "Address is required"))).2
      = [ExtCall.fetchSubmitProfile submitProfileUrl] ∧
    (handleProfileSubmit { initState with idToken := some "tok", step := Step.profile }
        (HttpResponse.mk false (some "Address is required"))).1.error
      = some "Address is required" := by
  have h := profileSubmit_failure_stays
    { initState with idToken := some "tok", step := Step.profile }
    (HttpResponse.mk false (some "Address is required")) "tok" rfl rfl rfl
  exact ⟨h.1, h.2.1, h.2.2.1 "Address is required" rfl (by decide)⟩

/-- Widget bookkeeping invariant: either no instance is alive, or the
single alive instance is the stored one. -/
def WidgetOk (s : FlowState) : Prop :=
  s.alive = [] ∨ ∃ w, s.alive = [w] ∧ s.stored = some w

theorem widgetOk_initState : WidgetOk initState :=
  Or.inl rfl

theorem widgetOk_setup (s : FlowState) (h : WidgetOk s) :
    WidgetOk (setupRecaptcha s) := by
  rcases h with ha | ⟨w, ha, hs⟩
  · right
    refine ⟨s.nextId, ?_, ?_⟩ <;> cases hst : s.stored <;>
      simp [setupRecaptcha, hst, ha]
  · right
    refine ⟨s.nextId, ?_, ?_⟩ <;>
      simp [setupRecaptcha, hs, ha, List.erase_cons_head]

theorem widgetOk_unmount (s : FlowState) (h : WidgetOk s) :
    WidgetOk (unmountCleanup s) := by
  rcases h with ha | ⟨w, ha, hs⟩
  · cases hst : s.stored <;> exact Or.inl (by simp [unmountCleanup, hst, ha])
  · exact Or.inl (by simp [unmountCleanup, hs, ha])

theorem runWidget_ok (es : List WidgetEvent) (s : FlowState) (h : WidgetOk s)
    (hev : ∀ e ∈ es, e = WidgetEvent.setup ∨ e = WidgetEvent.unmount) :
    WidgetOk (runWidget s es) := by
  induction es generalizing s with
  | nil => exact h
  | cons e es ih =>
    have he := hev e (by simp)
    have hstep : WidgetOk (widgetStep s e) := by
      rcases he with rfl | rfl
      · exact widgetOk_setup s h
      · exact widgetOk_unmount s h
    exact ih (widgetStep s e) hstep (fun e' he' => hev e' (by simp [he']))

theorem widgetOk_length (s : FlowState) (h : WidgetOk s) : s.alive.length ≤ 1 := by
  rcases h with ha | ⟨w, ha, _⟩ <;> simp [ha]

/-- C8, counterexample.  The widget's `expired-callback` drops the
stored reference (`window.recaptchaVerifier = undefined`) without
calling `clear()`, so after `setup`, `expired`, `setup` — a challenge
request, a reCAPTCHA expiry, and a retry — two widget instances (ids
`0` and `1`) are alive at once: instance `0` was never torn down. -/
theorem recaptcha_two_alive_cex :
    (runWidget initState
        [WidgetEvent.setup, WidgetEvent.expired, WidgetEvent.setup]).alive = [1, 0] ∧
    (runWidget initState
        [WidgetEvent.setup, WidgetEvent.expired, WidgetEvent.setup]).alive.length = 2 := by
  constructor <;> rfl

/-- C8, amended.  As long as the widget's expired/error callbacks
never fire, at most one widget instance is alive at any time:
`setupRecaptcha` clears the stored instance before creating and
storing a new one, and the unmount cleanup (which never inspects the
active step) clears the stored instance whenever one exists.  The
callbacks, however, drop the stored reference without clearing it, so
an un-cleared instance can be orphaned (see the counterexample). -/
theorem recaptcha_single_alive (es : List WidgetEvent)
    (hev : ∀ e ∈ es, e = WidgetEvent.setup ∨ e = WidgetEvent.unmount) :
    (runWidget initState es).alive.length ≤ 1 ∧
    (∀ (s : FlowState) (w : Nat), s.stored = some w →
      (widgetStep s WidgetEvent.unmount).alive = s.alive.erase w) := by
  refine ⟨widgetOk_length _ (runWidget_ok es initState widgetOk_initState hev), ?_⟩
  intro s w hw
  simp [widgetStep, unmountCleanup, hw]

/-- C8, witness: a concrete setup/unmount/setup sequence keeps at
most one instance alive, and the unmount cleanup erases a concretely
stored instance. -/
theorem recaptcha_single_alive_witness :
    (runWidget initState
        [WidgetEvent.setup, WidgetEvent.unmount, WidgetEvent.setup]).alive.length ≤ 1 ∧
    (widgetStep { initState with stored := some 5, alive := [5] }
        WidgetEvent.unmount).alive = [5].erase 5 := by
  have h := recaptcha_single_alive
    [WidgetEvent.setup, WidgetEvent.unmount, WidgetEvent.setup] (by decide)
  exact ⟨h.1, h.2 { initState with stored := some 5, alive := [5] } 5 rfl⟩

/-- Filtering to digits yields only digits. -/
theorem stripNonDigits_all_digits (v : String) :
    (stripNonDigits v).data.all Char.isDigit = true := by
  simp [stripNonDigits, List.all_eq_true, List.mem_filter]

/-- Input-field invariant: both sanitized fields hold only digits. -/
def InputOk (s : FlowState) : Prop :=
  s.phone.data.all Char.isDigit = true ∧ s.code.data.all Char.isDigit = true

theorem applyInput_ok (s : FlowState) (e : InputEvent) (h : InputOk s) :
    InputOk (applyInput s e) := by
  cases e with
  | phoneInput v => exact ⟨stripNonDigits_all_digits v, h.2⟩
  | codeInput v => exact ⟨h.1, stripNonDigits_all_digits v⟩

theorem runInput_ok (es : List InputEvent) (s : FlowState) (h : InputOk s) :
    InputOk (runInput s es) := by
  induction es generalizing s with
  | nil => exact h
  | cons e es ih => exact ih (applyInput s e) (applyInput_ok s e h)

/-- An all-digit string does not start with `+`. -/
theorem startsWithPlus_false_of_digits (s : String)
    (h : s.data.all Char.isDigit = true) : startsWithPlus s = false := by
  rw [List.all_eq_true] at h
  unfold startsWithPlus
  cases hd : s.data with
  | nil => rfl
  | cons c cs =>
    have hc : c.isDigit = true := h c (by rw [hd]; exact List.mem_cons_self c cs)
    have hne : c ≠ '+' := by
      intro he; rw [he] at hc; exact absurd hc (by decide)
    simp [hne]

/-- C9.  After any sequence of change events on the phone and code
inputs (each applying `value.replace(/\D/g, '')`), the stored phone
and code strings consist solely of decimal digits, and in particular
the phone string never starts with `+`. -/
theorem inputs_digits_only (es : List InputEvent) :
    (runInput initState es).phone.data.all Char.isDigit = true ∧
    (runInput initState es).code.data.all Char.isDigit = true ∧
    startsWithPlus (runInput initState es).phone = false := by
  have h := runInput_ok es initState ⟨rfl, rfl⟩
  exact ⟨h.1, h.2, startsWithPlus_false_of_digits _ h.1⟩

/-- C10.  When `signOut` rejects, `handleSignOut` sets the error
state to `Failed to sign out` and issues no navigation to the landing
page; the Dashboard (not in its loading state, since the sign-out
button is only rendered then) therefore renders the error panel,
whose only button is Retry. -/
theorem signOut_failure_no_navigation (s : DashState) (msg : String)
    (h : s.loading = false) :
    (handleSignOut s (Except.error msg)).1.error = some "Failed to sign out" ∧
    ExtCall.routerPush "/" ∉ (handleSignOut s (Except.error msg)).2 ∧
    renderDash (handleSignOut s (Except.error msg)).1 = DashView.errorPanel ∧
    viewButtons (renderDash (handleSignOut s (Except.error msg)).1) = ["Retry"] := by
  refine ⟨rfl, ?_, ?_, ?_⟩
  · simp [handleSignOut]
  · simp [handleSignOut, renderDash, h, strTruthy,
      (by decide : ("Failed to sign out" : String).isEmpty = false)]
  · simp [handleSignOut, renderDash, h, strTruthy, viewButtons,
      (by decide : ("Failed to sign out" : String).isEmpty = false)]

/-- C10, witness at a concrete loaded Dashboard state with a rejected
sign-out. -/
theorem signOut_failure_no_navigation_witness :
    (handleSignOut { loading := false, error := none }
        (Except.error "network down")).1.error = some "Failed to sign out" ∧
    ExtCall.routerPush "/" ∉
      (handleSignOut { loading := false, error := none }
        (Except.error "network down")).2 ∧
    renderDash (handleSignOut { loading := false, error := none }
        (Except.error "network down")).1 = DashView.errorPanel ∧
    viewButtons (renderDash (handleSignOut { loading := false, error := none }
        (Except.error "network down")).1) = ["Retry"] :=
  signOut_failure_no_navigation { loading := false, error := none } "network down" rfl

end CarpoolFrontend
